import Mathlib

/-!
Shallow embedding of the data-alchemist validation core
(`src/utils/validation.ts` and the rule validator module) in Lean 4.

Modelling conventions for the JavaScript semantics involved:
* A cell of a `DataRow` is a `Value`: a string, a number, or absent
  (`undefined`).  Numbers are modelled as `Option Int` with `none` playing
  the role of `NaN`; non-integer floats and `null` cells are outside the
  modelled universe (no claim involves them).
* `parseInt` is modelled in radix 10 (leading whitespace, optional sign,
  longest digit prefix, `NaN` when no digit), without the `0x` special case.
* `Number(...)` on a string is modelled for integer literals (trimmed,
  optional sign, all digits; empty string gives `0`, anything else `NaN`).
* JS `Record<number, number>` objects are association lists keyed by the
  JS number (with `none` for the `NaN` key, which stringifies to `"NaN"`);
  `Object.entries` enumerates array-index keys (non-negative integers) in
  ascending order first, then the remaining keys in insertion order.
-/

namespace DataAlchemist

/-- A JS value held in a data row cell: string, number (`none` = `NaN`),
or absent (`undefined`). -/
inductive Value where
  | str (s : String)
  | num (n : Option Int)
  | absent
deriving DecidableEq

/-- A data row: finite map from column name to value, as a function. -/
def Row := String → Value

/-! Character-list implementations of the JS string primitives.  The Lean
core `String` functions on positions do not reduce definitionally, so the
embedding works on `List Char` throughout. -/

/-- Whitespace-trim of a character list on both ends. -/
def charsTrim (cs : List Char) : List Char :=
  ((cs.dropWhile (fun c => c.isWhitespace)).reverse.dropWhile
    (fun c => c.isWhitespace)).reverse

/-- JS `s.trim()`. -/
def myTrim (s : String) : String := String.mk (charsTrim s.toList)

/-- ASCII lower-casing of one character. -/
def toLowerChar (c : Char) : Char :=
  if 'A' ≤ c ∧ c ≤ 'Z' then Char.ofNat (c.toNat + 32) else c

/-- JS `s.toLowerCase()` (ASCII). -/
def myToLower (s : String) : String := String.mk (s.toList.map toLowerChar)

/-- JS `s.split(sep)` for a one-character separator, on character lists.
Splitting the empty list gives one empty field, like JS `"".split("-")`. -/
def splitOnChar (sep : Char) : List Char → List (List Char)
  | [] => [[]]
  | h :: t =>
      if h = sep then [] :: splitOnChar sep t
      else
        match splitOnChar sep t with
        | [] => [[h]]
        | g :: gs => (h :: g) :: gs

/-- Whether `needle` is a prefix of `hay`. -/
def charsStartWith : List Char → List Char → Bool
  | _, [] => true
  | [], _ :: _ => false
  | h :: hs, n :: ns => h = n && charsStartWith hs ns

/-- Whether `needle` occurs contiguously inside `hay`. -/
def charsHaveInfix (needle : List Char) : List Char → Bool
  | [] => needle.isEmpty
  | h :: t => charsStartWith (h :: t) needle || charsHaveInfix needle t

/-- JS truthiness of a row value: `""`, `0`, `NaN` and `undefined` are falsy. -/
def jsTruthy : Value → Bool
  | .str s => !(s = "")
  | .num (some n) => !(n = 0)
  | .num none => false
  | .absent => false

/-- JS truthiness of a number (`0` and `NaN` are falsy). -/
def jsNumTruthy : Option Int → Bool
  | none => false
  | some n => !(n = 0)

/-- `String(v)` for the modelled values. -/
def jsToString : Value → String
  | .str s => s
  | .num (some n) => toString n
  | .num none => "NaN"
  | .absent => "undefined"

/-- Numeric value of a list of decimal digit characters. -/
def digitsVal (ds : List Char) : Int :=
  ds.foldl (fun acc c => acc * 10 + ((c.toNat : Int) - 48)) 0

/-- JS `parseInt` in radix 10 over characters: skip leading whitespace,
optional sign, longest digit prefix; `none` (`NaN`) when there is no
digit. -/
def jsParseIntChars (cs0 : List Char) : Option Int :=
  let cs := cs0.dropWhile (fun c => c.isWhitespace)
  let signAndRest : Int × List Char :=
    match cs with
    | '-' :: rest => (-1, rest)
    | '+' :: rest => (1, rest)
    | _ => (1, cs)
  let digits := signAndRest.2.takeWhile (fun c => c.isDigit)
  if digits.isEmpty then none else some (signAndRest.1 * digitsVal digits)

/-- JS `parseInt(s)` in radix 10. -/
def jsParseIntStr (s : String) : Option Int :=
  jsParseIntChars s.toList

/-- JS `Number(s)` for a string, restricted to integer literals: trimmed,
optional sign, all digits; the empty string converts to `0`. -/
def jsNumberStr (s : String) : Option Int :=
  let t := myTrim s
  if t = "" then some 0
  else
    let signAndRest : Int × List Char :=
      match t.toList with
      | '-' :: rest => (-1, rest)
      | '+' :: rest => (1, rest)
      | _ => (1, t.toList)
    if signAndRest.2 ≠ [] ∧ signAndRest.2.all (fun c => c.isDigit)
    then some (signAndRest.1 * digitsVal signAndRest.2)
    else none

/-- JS `Number(v)` on a row value (`undefined` converts to `NaN`). -/
def jsNumber : Value → Option Int
  | .str s => jsNumberStr s
  | .num n => n
  | .absent => none

/-- JS `+` on numbers: `NaN` propagates. -/
def jsAdd : Option Int → Option Int → Option Int
  | some a, some b => some (a + b)
  | _, _ => none

/-- JS `>` on numbers: false whenever either side is `NaN`. -/
def jsGt : Option Int → Option Int → Bool
  | some a, some b => decide (a > b)
  | _, _ => false

/-- JS `x >= y` on numbers: false whenever either side is `NaN`. -/
def jsGe : Option Int → Option Int → Bool
  | some a, some b => decide (a ≥ b)
  | _, _ => false

/-- JS `s.includes(sub)`: substring containment. -/
def jsIncludes (s sub : String) : Bool :=
  charsHaveInfix sub.toList s.toList

/-- Severity of a validation error. -/
inductive Severity where
  | error
  | warning
deriving DecidableEq

/-- The `ValidationError` record of `src/types/index.ts`. -/
structure ValidationError where
  rowIndex : Nat
  column : String
  error : String
  severity : Severity
deriving DecidableEq

/-- The `EntityType` union. -/
inductive EntityType where
  | clients
  | workers
  | tasks
deriving DecidableEq

/-- Identifier column per entity type (`validateDuplicateIds`, lines 89-90). -/
def idField : EntityType → String
  | .clients => "ClientID"
  | .workers => "WorkerID"
  | .tasks => "TaskID"

/-- `String(row[idField] || '')` (validation.ts lines 96 and 104). -/
def idOf (ty : EntityType) (row : Row) : String :=
  jsToString (if jsTruthy (row (idField ty)) then row (idField ty) else .str "")

/-- First pass of `validateDuplicateIds` (lines 92-101): walk the id values,
collecting values already seen into the duplicate set.  `seen` and `dups`
model the two JS `Set`s. -/
def scanDups (seen dups : List String) : List String → List String
  | [] => dups
  | id :: rest =>
      scanDups
        (if id ∈ seen then seen else seen ++ [id])
        (if id ≠ "" ∧ id ∈ seen
          then (if id ∈ dups then dups else dups ++ [id]) else dups)
        rest

/-- The set of duplicated (non-empty) identifier values. -/
def computeDuplicateIds (ids : List String) : List String :=
  scanDups [] [] ids

/-- Second pass of `validateDuplicateIds` (lines 103-113): one error per row
whose identifier value is in the duplicate set, in row order.  `n` is the
index of the first row of the remaining list. -/
def dupErrorsFrom (dups : List String) (field : String) (f : Row → String) :
    Nat → List Row → List ValidationError
  | _, [] => []
  | n, r :: rs =>
      (if f r ∈ dups
        then [⟨n, field, "Duplicate ID: " ++ f r, .error⟩] else []) ++
      dupErrorsFrom dups field f (n + 1) rs

/-- `DataValidator.validateDuplicateIds` (validation.ts lines 87-116). -/
def validateDuplicateIds (rows : List Row) (ty : EntityType) :
    List ValidationError :=
  dupErrorsFrom (computeDuplicateIds (rows.map (idOf ty)))
    (idField ty) (idOf ty) 0 rows

/-! ### Zod schema parsing (`validateRequiredFields`)

The three zod schemas (validation.ts lines 4-58) are modelled per field.
Parsing a field either succeeds, contributes zod issues, or throws a plain
JS `Error` (a `.transform` callback throwing is NOT caught by zod and
escapes `parse` as a non-`ZodError` exception). -/

/-- A zod issue: path (the field name) and message. -/
structure Issue where
  path : String
  msg : String
deriving DecidableEq

/-- Outcome of parsing one field of a zod object schema. -/
inductive FieldRes where
  | fieldOk
  | fieldIssues (issues : List Issue)
  | fieldThrown (msg : String)
deriving DecidableEq

/-- `z.string().min(1, msg)`: absent gives the zod `"Required"` issue,
a number an `invalid_type` issue, the empty string the custom message. -/
def requiredString (field msg : String) : Value → FieldRes
  | .absent => .fieldIssues [⟨field, "Required"⟩]
  | .num _ => .fieldIssues [⟨field, "Expected string, received number"⟩]
  | .str s => if s = "" then .fieldIssues [⟨field, msg⟩] else .fieldOk

/-- `z.string().optional().default("")`: absent is fine (default applies),
a number still fails the inner string check. -/
def optionalString (field : String) : Value → FieldRes
  | .absent => .fieldOk
  | .num _ => .fieldIssues [⟨field, "Expected string, received number"⟩]
  | .str _ => .fieldOk

/-- `z.union([z.string(), z.number()]).transform(...)` where the transform
applies `parseInt` to strings and throws `new Error(thrownMsg)` when the
result `isNaN` or satisfies `bad`.  An absent value fails the union with
the default `invalid_union` message. -/
def transformIntField (field thrownMsg : String) (bad : Int → Bool) :
    Value → FieldRes
  | .absent => .fieldIssues [⟨field, "Invalid input"⟩]
  | .str s =>
      match jsParseIntStr s with
      | none => .fieldThrown thrownMsg
      | some n => if bad n then .fieldThrown thrownMsg else .fieldOk
  | .num none => .fieldThrown thrownMsg
  | .num (some n) => if bad n then .fieldThrown thrownMsg else .fieldOk

/-- The `QualificationLevel` transform maps `NaN` to `1` and never throws;
only an absent value fails (the union). -/
def qualificationLevelField : Value → FieldRes
  | .absent => .fieldIssues [⟨"QualificationLevel", "Invalid input"⟩]
  | _ => .fieldOk

/-- Field outcomes of `ClientSchemaZod` in shape order (lines 4-17). -/
def clientFieldResults (row : Row) : List FieldRes :=
  [requiredString "ClientID" "ClientID is required" (row "ClientID"),
   requiredString "ClientName" "ClientName is required" (row "ClientName"),
   transformIntField "PriorityLevel" "PriorityLevel must be between 1-5"
     (fun n => n < 1 ∨ n > 5) (row "PriorityLevel"),
   optionalString "RequestedTaskIDs" (row "RequestedTaskIDs"),
   requiredString "GroupTag" "GroupTag is required" (row "GroupTag"),
   optionalString "AttributesJSON" (row "AttributesJSON")]

/-- Field outcomes of `WorkerSchemaZod` in shape order (lines 19-36). -/
def workerFieldResults (row : Row) : List FieldRes :=
  [requiredString "WorkerID" "WorkerID is required" (row "WorkerID"),
   requiredString "WorkerName" "WorkerName is required" (row "WorkerName"),
   requiredString "Skills" "Skills are required" (row "Skills"),
   requiredString "AvailableSlots" "AvailableSlots are required"
     (row "AvailableSlots"),
   transformIntField "MaxLoadPerPhase" "MaxLoadPerPhase must be at least 1"
     (fun n => n < 1) (row "MaxLoadPerPhase"),
   requiredString "WorkerGroup" "WorkerGroup is required" (row "WorkerGroup"),
   qualificationLevelField (row "QualificationLevel")]

/-- Field outcomes of `TaskSchemaZod` in shape order (lines 38-58). -/
def taskFieldResults (row : Row) : List FieldRes :=
  [requiredString "TaskID" "TaskID is required" (row "TaskID"),
   requiredString "TaskName" "TaskName is required" (row "TaskName"),
   requiredString "Category" "Category is required" (row "Category"),
   transformIntField "Duration" "Duration must be at least 1"
     (fun n => n < 1) (row "Duration"),
   requiredString "RequiredSkills" "RequiredSkills are required"
     (row "RequiredSkills"),
   requiredString "PreferredPhases" "PreferredPhases are required"
     (row "PreferredPhases"),
   transformIntField "MaxConcurrent" "MaxConcurrent must be at least 1"
     (fun n => n < 1) (row "MaxConcurrent")]

/-- Schema lookup by entity type (lines 63-67). -/
def schemaFieldResults (ty : EntityType) (row : Row) : List FieldRes :=
  match ty with
  | .clients => clientFieldResults row
  | .workers => workerFieldResults row
  | .tasks => taskFieldResults row

/-- `schema.parse(row)`: fields are processed in shape order; the first
transform that throws escapes immediately as a plain `Error`
(`Except.error`), discarding any issues already collected; otherwise all
issues are gathered into a `ZodError` (non-empty `Except.ok` list). -/
def zodParse (rs : List FieldRes) : Except String (List Issue) :=
  rs.foldl
    (fun acc r =>
      match acc with
      | .error m => .error m
      | .ok is =>
        match r with
        | .fieldOk => .ok is
        | .fieldIssues js => .ok (is ++ js)
        | .fieldThrown m => .error m)
    (Except.ok [])

/-- `DataValidator.validateRequiredFields` (validation.ts lines 61-85):
issues of a `ZodError` become error-severity entries; any other exception
(`Except.error`, from a throwing transform) is caught and ignored, so the
function returns no errors at all. -/
def validateRequiredFields (row : Row) (ty : EntityType) (index : Nat) :
    List ValidationError :=
  match zodParse (schemaFieldResults ty row) with
  | .error _ => []
  | .ok issues => issues.map (fun iss => ⟨index, iss.path, iss.msg, .error⟩)

/-! ### Phase-slot saturation (`validatePhaseSlotSaturation`) -/

/-- A JSON integer literal (as characters): trimmed, optional minus sign,
digits with no leading zero (JSON rejects `+`, leading zeros and empty
digit strings). -/
def jsonIntLit (p : List Char) : Option Int :=
  let q := charsTrim p
  let signAndRest : Int × List Char :=
    match q with
    | '-' :: rest => (-1, rest)
    | _ => (1, q)
  match signAndRest.2 with
  | [] => none
  | d :: ds =>
      if (d :: ds).all (fun c => c.isDigit) ∧ (ds = [] ∨ d ≠ '0')
      then some (signAndRest.1 * digitsVal (d :: ds))
      else none

/-- `JSON.parse` restricted to arrays of integers: `none` models the parse
throwing (or producing a value on which the subsequent `forEach` of numbers
is meaningless).  Nested structures, floats and non-numeric elements are
outside the modelled universe. -/
def jsonParseIntList (s : String) : Option (List Int) :=
  let t := charsTrim s.toList
  match t with
  | '[' :: rest =>
      if h : rest ≠ [] then
        if rest.getLast h = ']' then
          let inner := rest.dropLast
          if charsTrim inner = [] then some []
          else (splitOnChar ',' inner).mapM jsonIntLit
        else none
      else none
  | _ => none

/-- A phase key as a JS number (`none` = `NaN`, whose record key is
`"NaN"`). -/
def PhaseKey := Option Int
deriving DecidableEq

deriving instance DecidableEq for Except

/-- Record key string of a phase key (JS number-to-string). -/
def keyStr : PhaseKey → String
  | some n => toString n
  | none => "NaN"

/-- `for (let i = start; i <= end; i++)` collecting `i`. -/
def intRange (a b : Int) : List Int :=
  (List.range (b + 1 - a).toNat).map (fun k => a + k)

/-- Parsing of a task's `PreferredPhases` string (validation.ts lines
358-369): JSON array when it contains `'['` (a failed `JSON.parse` throws,
reported as `Except.error`), hyphenated range when it contains `'-'`
(`NaN` bounds make the loop body never run), bare `parseInt` otherwise. -/
def parseTaskPhases (phasesStr : String) : Except Unit (List PhaseKey) :=
  if jsIncludes phasesStr "[" then
    match jsonParseIntList phasesStr with
    | some ns => .ok (ns.map some)
    | none => .error ()
  else if jsIncludes phasesStr "-" then
    match ((splitOnChar '-' phasesStr.toList).map
        (fun p => jsParseIntChars (charsTrim p))).headD none,
      (((splitOnChar '-' phasesStr.toList).map
        (fun p => jsParseIntChars (charsTrim p))).drop 1).headD none with
    | some a, some b => .ok ((intRange a b).map some)
    | _, _ => .ok []
  else
    .ok [jsParseIntStr phasesStr]

/-- Parsing of a worker's `AvailableSlots` string (lines 392-396): only a
JSON array contributes slots; a failing `JSON.parse` is swallowed by the
empty `catch`, and a string without `'['` leaves `slots` empty. -/
def parseWorkerSlots (slotsStr : String) : List Int :=
  if jsIncludes slotsStr "[" then
    match jsonParseIntList slotsStr with
    | some ns => ns
    | none => []
  else []

/-- `record[k] = (record[k] || 0) + d` on an insertion-ordered association
list: an absent, `NaN` or `0` stored value collapses to `0` before the
(`NaN`-propagating) addition. -/
def recordAdd (m : List (PhaseKey × Option Int)) (k : PhaseKey)
    (d : Option Int) : List (PhaseKey × Option Int) :=
  match m with
  | [] => [(k, jsAdd (some 0) d)]
  | (k', v) :: rest =>
      if k' = k
      then (k', jsAdd (if jsNumTruthy v then v else some 0) d) :: rest
      else (k', v) :: recordAdd rest k d

/-- Insert a keyed entry into a list sorted by ascending integer key. -/
def insertByKey (e : PhaseKey × Option Int) :
    List (PhaseKey × Option Int) → List (PhaseKey × Option Int)
  | [] => [e]
  | f :: fs =>
      if (e.1.getD 0) ≤ (f.1.getD 0) then e :: f :: fs
      else f :: insertByKey e fs

/-- Insertion sort by ascending integer key. -/
def sortByKey : List (PhaseKey × Option Int) → List (PhaseKey × Option Int)
  | [] => []
  | e :: es => insertByKey e (sortByKey es)

/-- `Object.entries` enumeration order on a JS object with numeric keys:
array-index keys (non-negative integers) in ascending order, then the
remaining keys (negative numbers, `"NaN"`) in insertion order. -/
def recordEntries (m : List (PhaseKey × Option Int)) :
    List (PhaseKey × Option Int) :=
  let isIdx : PhaseKey → Bool := fun k =>
    match k with
    | some n => decide (n ≥ 0)
    | none => false
  sortByKey (m.filter (fun e => isIdx e.1)) ++
    m.filter (fun e => !(isIdx e.1))

/-- Association-list lookup (JS property read; `none` = `undefined`). -/
def assocLookup (m : List (PhaseKey × Option Int)) (k : PhaseKey) :
    Option (Option Int) :=
  match m with
  | [] => none
  | (k', v) :: rest => if k' = k then some v else assocLookup rest k

/-- Demand contribution of one task row (first loop, lines 353-383). -/
def addTaskDemand (m : List (PhaseKey × Option Int)) (t : Row) :
    List (PhaseKey × Option Int) :=
  if jsTruthy (t "PreferredPhases") ∧ jsTruthy (t "Duration") then
    match parseTaskPhases (jsToString (t "PreferredPhases")) with
    | .ok ps => ps.foldl (fun m p => recordAdd m p (jsNumber (t "Duration"))) m
    | .error _ => m
  else m

/-- `phaseDemand` after the first loop. -/
def phaseDemandOf (tasks : List Row) : List (PhaseKey × Option Int) :=
  tasks.foldl addTaskDemand []

/-- Whether the first loop pushes an `Invalid phase format` error for a
task row: both fields truthy and the phase parse throws. -/
def taskParseFails (t : Row) : Bool :=
  jsTruthy (t "PreferredPhases") && jsTruthy (t "Duration") &&
    (match parseTaskPhases (jsToString (t "PreferredPhases")) with
      | .error _ => true
      | .ok _ => false)

/-- Errors pushed by the first loop, in row order (`n` = index of the first
remaining row). -/
def demandErrorsFrom : Nat → List Row → List ValidationError
  | _, [] => []
  | n, t :: ts =>
      (if taskParseFails t
        then [⟨n, "PreferredPhases", "Invalid phase format", .error⟩]
        else []) ++
      demandErrorsFrom (n + 1) ts

/-- Capacity contribution of one worker row (second loop, lines 387-404). -/
def addWorkerCapacity (m : List (PhaseKey × Option Int)) (w : Row) :
    List (PhaseKey × Option Int) :=
  if jsTruthy (w "AvailableSlots") ∧ jsTruthy (w "MaxLoadPerPhase") then
    (parseWorkerSlots (jsToString (w "AvailableSlots"))).foldl
      (fun m s => recordAdd m (some s) (jsNumber (w "MaxLoadPerPhase"))) m
  else m

/-- `phaseCapacity` after the second loop. -/
def phaseCapacityOf (workers : List Row) : List (PhaseKey × Option Int) :=
  workers.foldl addWorkerCapacity []

/-- `phaseCapacity[parseInt(phase)] || 0` (line 407). -/
def capLookup (capacity : List (PhaseKey × Option Int)) (k : PhaseKey) :
    Option Int :=
  match assocLookup capacity (jsParseIntStr (keyStr k)) with
  | some v => if jsNumTruthy v then v else some 0
  | none => some 0

/-- Warning message of line 416. -/
def saturationMsg (k : PhaseKey) (demand cap : Option Int) : String :=
  "Phase " ++ keyStr k ++ " is oversaturated: " ++
    (match demand with | some n => toString n | none => "NaN") ++
    " demand vs " ++
    (match cap with | some n => toString n | none => "NaN") ++ " capacity"

/-- Inner loop of lines 409-421: warn every task row whose (truthy)
`PreferredPhases` string contains the phase's key string as a substring. -/
def warnRows (k : PhaseKey) (demand cap : Option Int) :
    Nat → List Row → List ValidationError
  | _, [] => []
  | n, t :: ts =>
      (if jsTruthy (t "PreferredPhases") ∧
          jsIncludes (jsToString (t "PreferredPhases")) (keyStr k)
        then [⟨n, "PreferredPhases", saturationMsg k demand cap, .warning⟩]
        else []) ++
      warnRows k demand cap (n + 1) ts

/-- Third loop (lines 406-423): for every demand entry in `Object.entries`
order, if demand strictly exceeds capacity, warn the matching task rows. -/
def saturationWarnings (tasks : List Row)
    (capacity : List (PhaseKey × Option Int)) :
    List (PhaseKey × Option Int) → List ValidationError
  | [] => []
  | (k, d) :: rest =>
      (if jsGt d (capLookup capacity k)
        then warnRows k d (capLookup capacity k) 0 tasks
        else []) ++
      saturationWarnings tasks capacity rest

/-- `DataValidator.validatePhaseSlotSaturation` (validation.ts lines
348-426). -/
def validatePhaseSlotSaturation (tasks workers : List Row) :
    List ValidationError :=
  demandErrorsFrom 0 tasks ++
    saturationWarnings tasks (phaseCapacityOf workers)
      (recordEntries (phaseDemandOf tasks))

/-! ### Rule validation (`validateRule`, `validateRuleConflicts`,
`validateRuleAgainstData`)

Rules carry their type tag together with the matching config payload (the
TS code switches on the string tag and casts the config).  Regex validity
(`isValidRegex`, a `new RegExp` try/catch in helpers.ts) is an external
JS notion and is passed in as a function `rv`.  `Date` parsing of a phase
window's `timeWindow` strings is likewise abstracted: each bound is the
parsed timestamp, `none` standing for an invalid date (`NaN`). -/

/-- A rule's type tag with its config payload.  `unknown` models any tag
outside the six known variants. -/
inductive RuleConfig where
  | coRun (taskIds : List String) (mustRunTogether : Bool)
  | slotRestriction (workerGroup clientGroup : Option String)
      (minCommonSlots : Int) (maxCommonSlots : Option Int)
      (phases : Option (List String))
  | loadLimit (workerGroup : String) (maxSlotsPerPhase : Int)
      (phases : Option (List String))
  | phaseWindow (taskId : String) (allowedPhases : List String)
      (restrictedPhases : Option (List String))
      (timeWindow : Option (Option Int × Option Int))
  | patternMatch (field pat action entityType : String)
      (message : Option String)
  | precedenceOverride (higherPriorityItems lowerPriorityItems :
      Option (List String)) (entityType : String)
  | unknown (tag : String)
deriving DecidableEq

/-- The fields of `BaseRule` that the validators read, plus the config. -/
structure Rule where
  name : String
  description : String
  priority : Int
  config : RuleConfig
deriving DecidableEq

/-- The `RuleValidationResult` record. -/
structure RuleResult where
  isValid : Bool
  errors : List String
  warnings : List String
  suggestions : List String
deriving DecidableEq

/-- JS falsiness of an optional string (`undefined` or `""`). -/
def optFalsy : Option String → Bool
  | none => true
  | some s => s = ""

/-- Number of distinct elements (`new Set(xs).size`). -/
def distinctCount (xs : List String) : Nat := xs.dedup.length

/-- `validateCoRunRule` (part_005 lines 61-79); returns (errors, warnings).
`!config.taskIds` cannot fire for a present array, so only the length
check remains of line 64. -/
def validateCoRunRule (taskIds : List String) :
    List String × List String :=
  ((if taskIds.length < 2
      then ["Co-run rules require at least 2 task IDs"] else []) ++
   (if taskIds.any (fun id => myTrim id = "")
      then ["All task IDs must be non-empty"] else []) ++
   (if distinctCount taskIds ≠ taskIds.length
      then ["Task IDs must be unique"] else []),
   if taskIds.length > 10
    then ["Co-run rules with many tasks may impact performance"] else [])

/-- `validateSlotRestrictionRule` (lines 81-103). -/
def validateSlotRestrictionRule (workerGroup clientGroup : Option String)
    (minCommonSlots : Int) (maxCommonSlots : Option Int)
    (phases : Option (List String)) : List String × List String :=
  ((if optFalsy workerGroup ∧ optFalsy clientGroup
      then ["Either worker group or client group must be specified"]
      else []) ++
   (if minCommonSlots < 0
      then ["Minimum common slots must be non-negative"] else []) ++
   (match maxCommonSlots with
    | some m =>
        if m < minCommonSlots
        then ["Maximum common slots must be greater than or equal to minimum"]
        else []
    | none => []),
   (if phases = some []
      then ["Empty phases array will have no effect"] else []) ++
   (if minCommonSlots > 24
      then ["Very high slot requirements may be difficult to satisfy"]
      else []))

/-- `validateLoadLimitRule` (lines 105-123). -/
def validateLoadLimitRule (workerGroup : String) (maxSlotsPerPhase : Int)
    (phases : Option (List String)) : List String × List String :=
  ((if myTrim workerGroup = ""
      then ["Worker group is required for load limit rules"] else []) ++
   (if maxSlotsPerPhase ≤ 0
      then ["Maximum slots per phase must be positive"] else []),
   (if maxSlotsPerPhase > 100
      then ["Very high slot limits may not be practical"] else []) ++
   (if phases = some []
      then ["Empty phases array will apply to all phases"] else []))

/-- `validatePhaseWindowRule` (lines 125-161).  An empty `allowedPhases`
array is still truthy in JS, so the overlap check runs whenever
`restrictedPhases` is present. -/
def validatePhaseWindowRule (taskId : String) (allowedPhases : List String)
    (restrictedPhases : Option (List String))
    (timeWindow : Option (Option Int × Option Int)) :
    List String × List String :=
  ((if myTrim taskId = ""
      then ["Task ID is required for phase window rules"] else []) ++
   (if allowedPhases.length = 0
      then ["At least one allowed phase must be specified"] else []) ++
   (match restrictedPhases with
    | some rs =>
        if allowedPhases.any (fun p => rs.contains p)
        then ["Allowed and restricted phases cannot overlap"] else []
    | none => []) ++
   (match timeWindow with
    | some (start, stop) =>
        (if start = none then ["Invalid start time format"] else []) ++
        (if stop = none then ["Invalid end time format"] else []) ++
        (if jsGe start stop
          then ["Start time must be before end time"] else [])
    | none => []),
   [])

/-- `validatePatternMatchRule` (lines 163-191); returns
(errors, warnings, suggestions). -/
def validatePatternMatchRule (rv : String → Bool)
    (field pat action entityType : String) (message : Option String) :
    List String × List String × List String :=
  ((if myTrim field = ""
      then ["Field name is required for pattern match rules"] else []) ++
   (if myTrim pat = ""
      then ["Pattern is required for pattern match rules"]
      else if !(rv pat)
      then ["Invalid regular expression pattern"] else []) ++
   (if !(["allow", "deny", "flag"].contains action)
      then ["Action must be one of: allow, deny, flag"] else []) ++
   (if !(["clients", "workers", "tasks"].contains entityType)
      then ["Entity type must be one of: clients, workers, tasks"] else []),
   (if pat ≠ "" ∧ pat.length > 200
      then ["Complex regex patterns may impact performance"] else []),
   (if action = "flag" ∧ optFalsy message
      then ["Consider adding a message for flag actions to improve clarity"]
      else []))

/-- `validatePrecedenceOverrideRule` (lines 193-237). -/
def validatePrecedenceOverrideRule
    (higher lower : Option (List String)) (entityType : String) :
    List String × List String :=
  let allItems := higher.getD [] ++ lower.getD []
  ((if (higher = none ∨ higher = some []) ∧ (lower = none ∨ lower = some [])
      then ["Either higher or lower priority items must be specified"]
      else []) ++
   (match higher, lower with
    | some hs, some ls =>
        if hs.any (fun item => ls.contains item)
        then ["Items cannot be in both higher and lower priority lists"]
        else []
    | _, _ => []) ++
   (if !(["clients", "workers", "tasks"].contains entityType)
      then ["Entity type must be one of: clients, workers, tasks"] else []) ++
   (if allItems.any (fun item => myTrim item = "")
      then ["All item IDs must be non-empty"] else []) ++
   (match higher with
    | some hs =>
        if distinctCount hs ≠ hs.length
        then ["Higher priority items must be unique"] else []
    | none => []) ++
   (match lower with
    | some ls =>
        if distinctCount ls ≠ ls.length
        then ["Lower priority items must be unique"] else []
    | none => []),
   [])

/-- Dispatch of the `switch` in `validateRule` (lines 34-55); returns
(errors, warnings, suggestions) contributed by the variant. -/
def variantChecks (rv : String → Bool) :
    RuleConfig → List String × List String × List String
  | .coRun taskIds _ =>
      let (es, ws) := validateCoRunRule taskIds
      (es, ws, [])
  | .slotRestriction wg cg minS maxS phases =>
      let (es, ws) := validateSlotRestrictionRule wg cg minS maxS phases
      (es, ws, [])
  | .loadLimit wg maxS phases =>
      let (es, ws) := validateLoadLimitRule wg maxS phases
      (es, ws, [])
  | .phaseWindow tid aps rps tw =>
      let (es, ws) := validatePhaseWindowRule tid aps rps tw
      (es, ws, [])
  | .patternMatch field pat action et msg =>
      validatePatternMatchRule rv field pat action et msg
  | .precedenceOverride h l et =>
      let (es, ws) := validatePrecedenceOverrideRule h l et
      (es, ws, [])
  | .unknown tag => (["Unknown rule type: " ++ tag], [], [])

/-- `validateRule` (part_005 lines 14-59): common name/description/priority
checks, then the variant checks, then `isValid := errors.length === 0`. -/
def validateRule (rv : String → Bool) (rule : Rule) : RuleResult :=
  let commonErrors :=
    (if myTrim rule.name = "" then ["Rule name is required"] else []) ++
    (if rule.priority < 0 ∨ rule.priority > 100
      then ["Rule priority must be between 0 and 100"] else [])
  let commonWarnings :=
    if myTrim rule.description = ""
    then ["Rule description is recommended for clarity"] else []
  let vc := variantChecks rv rule.config
  let errors := commonErrors ++ vc.1
  { isValid := errors.isEmpty
    errors := errors
    warnings := commonWarnings ++ vc.2.1
    suggestions := vc.2.2 }

/-- The string type tag of a rule (the TS `rule.type` discriminant). -/
def ruleTag : RuleConfig → String
  | .coRun _ _ => "co-run"
  | .slotRestriction _ _ _ _ _ => "slot-restriction"
  | .loadLimit _ _ _ => "load-limit"
  | .phaseWindow _ _ _ _ => "phase-window"
  | .patternMatch _ _ _ _ _ => "pattern-match"
  | .precedenceOverride _ _ _ => "precedence-override"
  | .unknown tag => tag

/-- `taskIds` read through the `as CoRunRule` cast (empty list for the
unreachable non-co-run case). -/
def coRunTaskIds (r : Rule) : List String :=
  match r.config with
  | .coRun ids _ => ids
  | _ => []

/-- `mustRunTogether` read through the `as CoRunRule` cast. -/
def coRunMRT (r : Rule) : Bool :=
  match r.config with
  | .coRun _ m => m
  | _ => false

/-- `workerGroup` read through the `as LoadLimitRule` cast. -/
def loadLimitWG (r : Rule) : String :=
  match r.config with
  | .loadLimit wg _ _ => wg
  | _ => ""

/-- Duplicate-name pass of `validateRuleConflicts` (lines 247-255): a
`Map` from lowercased-trimmed name to first index; later holders of the
same key yield a warning naming both one-based positions. -/
def dupNameWarnings (m : List (String × Nat)) :
    Nat → List Rule → List String
  | _, [] => []
  | i, r :: rs =>
      let key := myTrim (myToLower r.name)
      match m.lookup key with
      | some j =>
          ("Duplicate rule name: \"" ++ r.name ++ "\" (rules " ++
            toString (j + 1) ++ " and " ++ toString (i + 1) ++ ")") ::
          dupNameWarnings m (i + 1) rs
      | none => dupNameWarnings (m ++ [(key, i)]) (i + 1) rs

/-- Conflict message for one ordered pair of co-run rules (lines 263-272),
`none` when the pair does not conflict. -/
def conflictMsg (r1 r2 : Rule) : Option String :=
  let common := (coRunTaskIds r1).filter
    (fun id => (coRunTaskIds r2).contains id)
  if common.length > 0 ∧ coRunMRT r1 ≠ coRunMRT r2
  then some ("Conflicting co-run rules for tasks: " ++
    String.intercalate ", " common ++
    " (rules \"" ++ r1.name ++ "\" and \"" ++ r2.name ++ "\")")
  else none

/-- O(n²) pairwise scan over the co-run rules (lines 258-274), `i < j`
order. -/
def coRunPairErrors : List Rule → List String
  | [] => []
  | r :: rs => rs.filterMap (conflictMsg r) ++ coRunPairErrors rs

/-- Insertion-ordered grouping of load-limit rules by worker group
(lines 277-285). -/
def groupByWG (m : List (String × List Rule)) :
    List Rule → List (String × List Rule)
  | [] => m
  | r :: rs =>
      let g := loadLimitWG r
      let m' :=
        if (m.lookup g).isSome
        then m.map (fun e => if e.1 = g then (e.1, e.2 ++ [r]) else e)
        else m ++ [(g, [r])]
      groupByWG m' rs

/-- Warnings for worker groups covered by more than one load-limit rule
(lines 287-293). -/
def multiLoadWarnings (groups : List (String × List Rule)) : List String :=
  groups.filterMap (fun e =>
    if e.2.length > 1
    then some ("Multiple load limit rules for worker group \"" ++ e.1 ++
      "\": " ++ String.intercalate ", " (e.2.map (fun r => r.name)))
    else none)

/-- `validateRuleConflicts` (part_005 lines 239-297). -/
def validateRuleConflicts (rules : List Rule) : RuleResult :=
  let nameWarnings := dupNameWarnings [] 0 rules
  let errors := coRunPairErrors
    (rules.filter (fun r => ruleTag r.config = "co-run"))
  let loadWarnings := multiLoadWarnings
    (groupByWG [] (rules.filter (fun r => ruleTag r.config = "load-limit")))
  { isValid := errors.isEmpty
    errors := errors
    warnings := nameWarnings ++ loadWarnings
    suggestions := [] }

/-- The data context of `validateRuleAgainstData`. -/
structure DataContext where
  availableTaskIds : List String
  availableWorkerGroups : List String
  availableClientGroups : List String
deriving DecidableEq

/-- Warnings contributed per variant by `validateRuleAgainstData`
(lines 314-371); the `pattern-match` and unknown tags hit no case. -/
def againstDataWarnings (cfg : RuleConfig) (ctx : DataContext) :
    List String :=
  match cfg with
  | .coRun taskIds _ =>
      let invalid := taskIds.filter
        (fun id => !(ctx.availableTaskIds.contains id))
      if invalid.length > 0
      then ["Task IDs not found in data: " ++ String.intercalate ", " invalid]
      else []
  | .loadLimit wg _ _ =>
      if !(ctx.availableWorkerGroups.contains wg)
      then ["Worker group not found in data: " ++ wg] else []
  | .slotRestriction wg cg _ _ _ =>
      (match wg with
       | some g =>
           if g ≠ "" ∧ !(ctx.availableWorkerGroups.contains g)
           then ["Worker group not found in data: " ++ g] else []
       | none => []) ++
      (match cg with
       | some g =>
           if g ≠ "" ∧ !(ctx.availableClientGroups.contains g)
           then ["Client group not found in data: " ++ g] else []
       | none => [])
  | .phaseWindow tid _ _ _ =>
      if !(ctx.availableTaskIds.contains tid)
      then ["Task ID not found in data: " ++ tid] else []
  | .precedenceOverride higher lower et =>
      let entityIds :=
        if et = "clients" then ctx.availableClientGroups
        else if et = "workers" then ctx.availableWorkerGroups
        else ctx.availableTaskIds
      let invalidHigher := (higher.getD []).filter
        (fun id => !(entityIds.contains id))
      let invalidLower := (lower.getD []).filter
        (fun id => !(entityIds.contains id))
      (if invalidHigher.length > 0
        then ["Higher priority items not found: " ++
          String.intercalate ", " invalidHigher] else []) ++
      (if invalidLower.length > 0
        then ["Lower priority items not found: " ++
          String.intercalate ", " invalidLower] else [])
  | .patternMatch _ _ _ _ _ => []
  | .unknown _ => []

/-- `validateRuleAgainstData` (part_005 lines 299-374): `isValid` stays at
its initial `true` and `errors` is never pushed to. -/
def validateRuleAgainstData (rule : Rule) (ctx : DataContext) : RuleResult :=
  { isValid := true
    errors := []
    warnings := againstDataWarnings rule.config ctx
    suggestions := [] }

/-! ### Concrete sample rows and contexts used to evaluate the validators -/

/-- Association-list lookup for building concrete rows. -/
def lookupVal : List (String × Value) → String → Value
  | [], _ => .absent
  | (k, v) :: rest, f => if k = f then v else lookupVal rest f

/-- A concrete row from field-value pairs; all other fields are absent. -/
def mkRow (l : List (String × Value)) : Row := fun f => lookupVal l f

/-- Task with `PreferredPhases='[1]'`, `Duration=5`. -/
def taskP1D5 : Row :=
  mkRow [("PreferredPhases", .str "[1]"), ("Duration", .num (some 5))]

/-- Worker with `AvailableSlots='[1]'`, `MaxLoadPerPhase=3`. -/
def workerS1L3 : Row :=
  mkRow [("AvailableSlots", .str "[1]"), ("MaxLoadPerPhase", .num (some 3))]

/-- Worker with `AvailableSlots='[1]'`, `MaxLoadPerPhase=5`. -/
def workerS1L5 : Row :=
  mkRow [("AvailableSlots", .str "[1]"), ("MaxLoadPerPhase", .num (some 5))]

/-- Task with `PreferredPhases='[1]'`, `Duration=3`. -/
def taskP1D3 : Row :=
  mkRow [("PreferredPhases", .str "[1]"), ("Duration", .num (some 3))]

/-- Worker whose `AvailableSlots` is the bare number `'1'`,
`MaxLoadPerPhase=3`. -/
def workerBare1L3 : Row :=
  mkRow [("AvailableSlots", .str "1"), ("MaxLoadPerPhase", .num (some 3))]

/-- Task with the unparsable `PreferredPhases='abc'`, `Duration=1`. -/
def taskAbc : Row :=
  mkRow [("PreferredPhases", .str "abc"), ("Duration", .num (some 1))]

/-- Task with the hyphenated range `PreferredPhases='1-3'`, `Duration=1`. -/
def taskRange13 : Row :=
  mkRow [("PreferredPhases", .str "1-3"), ("Duration", .num (some 1))]

/-- Task with broken JSON `PreferredPhases='[1,2'`, `Duration=1`. -/
def taskBadJson : Row :=
  mkRow [("PreferredPhases", .str "[1,2"), ("Duration", .num (some 1))]

/-- Client row whose `ClientID` is the empty string. -/
def clientNoId : Row := mkRow [("ClientID", .str "")]

/-- Client row with `ClientID='A'`. -/
def clientIdA : Row := mkRow [("ClientID", .str "A")]

/-- Client row with `ClientID='B'`. -/
def clientIdB : Row := mkRow [("ClientID", .str "B")]

/-- Client row missing `ClientID` whose `PriorityLevel` is the out-of-range
`'99'` (the other required fields are present). -/
def clientMissingIdBadPrio : Row :=
  mkRow [("ClientName", .str "Acme"), ("PriorityLevel", .str "99"),
    ("GroupTag", .str "G")]

/-- The same row with the in-range `PriorityLevel='3'`. -/
def clientMissingIdOkPrio : Row :=
  mkRow [("ClientName", .str "Acme"), ("PriorityLevel", .str "3"),
    ("GroupTag", .str "G")]

/-- A data context whose only task id is `T1`. -/
def ctxT1 : DataContext := ⟨["T1"], [], []⟩

/-! ### Supporting lemmas -/

/-- The duplicate set computed by `scanDups` only grows. -/
theorem scanDups_mono (v : String) :
    ∀ (ids seen dups : List String), v ∈ dups → v ∈ scanDups seen dups ids := by
  intro ids
  induction ids with
  | nil => intro seen dups h; simpa [scanDups] using h
  | cons id rest ih =>
      intro seen dups h
      simp only [scanDups]
      apply ih
      split_ifs with h1 h2
      · exact h
      · exact List.mem_append_left _ h
      · exact h

/-- A non-empty value already seen and occurring in the remaining ids lands
in the duplicate set. -/
theorem scanDups_of_seen (v : String) (hv : v ≠ "") :
    ∀ (ids seen dups : List String), v ∈ seen → v ∈ ids →
      v ∈ scanDups seen dups ids := by
  intro ids
  induction ids with
  | nil => intro seen dups _ h; cases h
  | cons id rest ih =>
      intro seen dups hseen hmem
      simp only [scanDups]
      rcases List.mem_cons.mp hmem with heq | hrest
      · subst heq
        apply scanDups_mono
        rw [if_pos ⟨hv, hseen⟩]
        split_ifs with h2
        · exact h2
        · exact List.mem_append_right _ (List.mem_singleton.mpr rfl)
      · apply ih _ _ _ hrest
        split_ifs with h1
        · exact hseen
        · exact List.mem_append_left _ hseen

/-- A non-empty value occurring at least twice lands in the duplicate set. -/
theorem scanDups_of_count (v : String) (hv : v ≠ "") :
    ∀ (ids seen dups : List String), 2 ≤ ids.count v →
      v ∈ scanDups seen dups ids := by
  intro ids
  induction ids with
  | nil => intro seen dups h; simp [List.count_nil] at h
  | cons id rest ih =>
      intro seen dups h
      by_cases heq : id = v
      · subst heq
        have hrest : 0 < rest.count id := by
          rw [List.count_cons_self] at h
          omega
        have hmem : id ∈ rest := List.count_pos_iff.mp hrest
        simp only [scanDups]
        refine scanDups_of_seen id hv rest _ _ ?_ hmem
        split_ifs with h1
        · exact h1
        · exact List.mem_append_right _ (List.mem_singleton.mpr rfl)
      · have h' : 2 ≤ rest.count v := by
          rwa [List.count_cons_of_ne (Ne.symm heq)] at h
        simp only [scanDups]
        exact ih _ _ h'

/-- The empty string never enters the duplicate set. -/
theorem scanDups_empty_str :
    ∀ (ids seen dups : List String), "" ∉ dups →
      "" ∉ scanDups seen dups ids := by
  intro ids
  induction ids with
  | nil => intro seen dups h; simpa [scanDups] using h
  | cons id rest ih =>
      intro seen dups h
      simp only [scanDups]
      apply ih
      split_ifs with h1 h2
      · exact h
      · intro hc
        rcases List.mem_append.mp hc with hc1 | hc2
        · exact h hc1
        · exact h1.1 (List.mem_singleton.mp hc2).symm
      · exact h

/-- Every row whose identifier is in the duplicate set yields its error. -/
theorem mem_dupErrorsFrom (dups : List String) (field : String)
    (f : Row → String) :
    ∀ (rows : List Row) (n j : Nat) (h : j < rows.length),
      f (rows.get ⟨j, h⟩) ∈ dups →
      (⟨n + j, field, "Duplicate ID: " ++ f (rows.get ⟨j, h⟩), .error⟩ :
        ValidationError) ∈ dupErrorsFrom dups field f n rows := by
  intro rows
  induction rows with
  | nil => intro n j h; exact absurd h (Nat.not_lt_zero j)
  | cons r rs ih =>
      intro n j h hmem
      cases j with
      | zero =>
          simp only [dupErrorsFrom]
          apply List.mem_append_left
          have hr : f r ∈ dups := hmem
          rw [if_pos hr]
          exact List.mem_singleton.mpr rfl
      | succ j' =>
          simp only [dupErrorsFrom]
          apply List.mem_append_right
          have h' : j' < rs.length := Nat.lt_of_succ_lt_succ h
          have heq : n + (j' + 1) = (n + 1) + j' := by omega
          have := ih (n + 1) j' h' hmem
          rw [heq]
          exact this

/-- Every emitted duplicate error points at a row whose identifier is in
the duplicate set. -/
theorem rowIndex_of_mem_dupErrorsFrom (dups : List String) (field : String)
    (f : Row → String) :
    ∀ (rows : List Row) (n : Nat) (e : ValidationError),
      e ∈ dupErrorsFrom dups field f n rows →
      ∃ j, ∃ h : j < rows.length,
        e.rowIndex = n + j ∧ f (rows.get ⟨j, h⟩) ∈ dups := by
  intro rows
  induction rows with
  | nil => intro n e h; simp [dupErrorsFrom] at h
  | cons r rs ih =>
      intro n e he
      simp only [dupErrorsFrom] at he
      rcases List.mem_append.mp he with h1 | h2
      · by_cases hc : f r ∈ dups
        · rw [if_pos hc] at h1
          have he' := List.mem_singleton.mp h1
          subst he'
          exact ⟨0, Nat.succ_pos _, by simp, hc⟩
        · rw [if_neg hc] at h1
          cases h1
      · rcases ih (n + 1) e h2 with ⟨j, hj, hr, hd⟩
        exact ⟨j + 1, Nat.succ_lt_succ hj, by omega, hd⟩

/-- Entries of the saturation warning pass all carry `warning` severity. -/
theorem severity_of_mem_warnRows (k : PhaseKey) (d cap : Option Int) :
    ∀ (ts : List Row) (n : Nat) (e : ValidationError),
      e ∈ warnRows k d cap n ts → e.severity = .warning := by
  intro ts
  induction ts with
  | nil => intro n e h; simp [warnRows] at h
  | cons t ts ih =>
      intro n e he
      simp only [warnRows] at he
      rcases List.mem_append.mp he with h1 | h2
      · split_ifs at h1 with hc
        · rw [List.mem_singleton.mp h1]
        · cases h1
      · exact ih (n + 1) e h2

/-- Every element of `saturationWarnings` has `warning` severity. -/
theorem severity_of_mem_saturationWarnings (tasks : List Row)
    (capacity : List (PhaseKey × Option Int)) :
    ∀ (entries : List (PhaseKey × Option Int)) (e : ValidationError),
      e ∈ saturationWarnings tasks capacity entries →
      e.severity = .warning := by
  intro entries
  induction entries with
  | nil => intro e h; simp [saturationWarnings] at h
  | cons kd rest ih =>
      intro e he
      simp only [saturationWarnings] at he
      rcases List.mem_append.mp he with h1 | h2
      · split_ifs at h1 with hc
        · exact severity_of_mem_warnRows kd.1 kd.2 _ tasks 0 e h1
        · cases h1
      · exact ih e h2

/-- Every element of the demand-pass error list is the `Invalid phase
format` error of a row whose phase parse fails. -/
theorem mem_demandErrorsFrom :
    ∀ (ts : List Row) (n : Nat) (e : ValidationError),
      e ∈ demandErrorsFrom n ts →
      ∃ j, ∃ h : j < ts.length,
        e = ⟨n + j, "PreferredPhases", "Invalid phase format", .error⟩ ∧
        taskParseFails (ts.get ⟨j, h⟩) = true := by
  intro ts
  induction ts with
  | nil => intro n e h; simp [demandErrorsFrom] at h
  | cons t ts ih =>
      intro n e he
      simp only [demandErrorsFrom] at he
      rcases List.mem_append.mp he with h1 | h2
      · split_ifs at h1 with hc
        · refine ⟨0, Nat.succ_pos _, ?_, hc⟩
          rw [List.mem_singleton.mp h1]
          simp
        · cases h1
      · rcases ih (n + 1) e h2 with ⟨j, hj, hr, hd⟩
        refine ⟨j + 1, Nat.succ_lt_succ hj, ?_, hd⟩
        rw [hr]
        have : (n + 1) + j = n + (j + 1) := by omega
        rw [this]

/-- A task phase parse only throws when the string contains `'['` and fails
JSON array parsing. -/
theorem parseTaskPhases_error_shape (s : String) :
    parseTaskPhases s = .error () →
    jsIncludes s "[" = true ∧ jsonParseIntList s = none := by
  unfold parseTaskPhases
  split_ifs with h1 h2
  · cases hj : jsonParseIntList s <;> simp [hj, h1]
  · intro h
    exfalso
    revert h
    split <;> simp
  · simp

/-! ### Claim theorems -/

/-- C1: the claim says a row missing a required field always yields exactly
one error-severity Validation Error naming that field, regardless of the
other fields.  The code violates this: a client row missing `ClientID`
whose `PriorityLevel` is the out-of-range `'99'` makes the zod transform
throw a plain `Error`, which the `instanceof ZodError` catch discards, so
`validateRequiredFields` returns no errors at all; with an in-range
`PriorityLevel` the same row yields the single expected `ClientID` error. -/
theorem claim_C1_missing_field_error_swallowed :
    validateRequiredFields clientMissingIdBadPrio .clients 0 = [] ∧
    validateRequiredFields clientMissingIdOkPrio .clients 0 =
      [⟨0, "ClientID", "Required", .error⟩] := by
  decide

/-- C2 counterexample: a worker whose `AvailableSlots` is the bare number
`'1'` contributes no capacity (phase 1 shows `0` capacity although the
claim promises `3`, so the oversaturation warning wrongly fires), and a
task whose `PreferredPhases` is the unparsable `'abc'` receives no
error-severity Validation Error at all. -/
theorem claim_C2_counterexample :
    validatePhaseSlotSaturation [taskP1D3] [workerBare1L3] =
      [⟨0, "PreferredPhases",
        "Phase 1 is oversaturated: 3 demand vs 0 capacity", .warning⟩] ∧
    validatePhaseSlotSaturation [taskAbc] [] = [] := by
  decide

/-- C2 amended: tasks' `PreferredPhases` is parsed in all three encodings
(JSON array, hyphenated range, bare number), but workers' `AvailableSlots`
contributes `MaxLoadPerPhase` capacity only when it is a JSON array, and a
task row receives an error-severity Validation Error only when its
`PreferredPhases` string contains `'['` and fails JSON array parsing. -/
theorem claim_C2_amended :
    (parseTaskPhases "[1,2,3]" = .ok [some 1, some 2, some 3] ∧
     parseTaskPhases "1-3" = .ok [some 1, some 2, some 3] ∧
     parseTaskPhases "7" = .ok [some 7]) ∧
    (parseWorkerSlots "[1,2]" = [1, 2] ∧
     parseWorkerSlots "1-3" = [] ∧
     parseWorkerSlots "7" = []) ∧
    (∀ (tasks workers : List Row) (i : Nat) (c m : String),
      (⟨i, c, m, Severity.error⟩ : ValidationError) ∈
        validatePhaseSlotSaturation tasks workers →
      ∃ h : i < tasks.length,
        jsIncludes (jsToString ((tasks.get ⟨i, h⟩) "PreferredPhases")) "["
          = true ∧
        jsonParseIntList (jsToString ((tasks.get ⟨i, h⟩) "PreferredPhases"))
          = none ∧
        c = "PreferredPhases" ∧ m = "Invalid phase format") := by
  refine ⟨by decide, by decide, ?_⟩
  intro tasks workers i c m hmem
  rcases List.mem_append.mp hmem with h1 | h2
  · rcases mem_demandErrorsFrom tasks 0 _ h1 with ⟨j, hj, he, hf⟩
    simp only [ValidationError.mk.injEq] at he
    obtain ⟨hi, hcol, hmsg, -⟩ := he
    rw [Nat.zero_add] at hi
    subst hi
    refine ⟨hj, ?_, ?_, hcol, hmsg⟩ <;>
    · unfold taskParseFails at hf
      simp only [Bool.and_eq_true] at hf
      obtain ⟨-, hp⟩ := hf
      cases hpe : parseTaskPhases
          (jsToString ((tasks.get ⟨i, hj⟩) "PreferredPhases")) with
      | ok l => rw [hpe] at hp; cases hp
      | error u =>
          cases u
          first
          | exact (parseTaskPhases_error_shape _ hpe).1
          | exact (parseTaskPhases_error_shape _ hpe).2
  · have hs := severity_of_mem_saturationWarnings tasks _ _ _ h2
    cases hs

/-- C3: the claim says every task row contributing to an oversaturated
phase is warned.  The code instead re-derives contribution by a substring
test on the raw `PreferredPhases` string, so the single task `'1-3'`
(duration 1, no workers) contributes demand 1 to phases 1, 2 and 3 — all
oversaturated at capacity 0 — yet is warned only for phases 1 and 3,
because the string `'1-3'` does not contain the character `'2'`. -/
theorem claim_C3_contributing_row_not_warned :
    validatePhaseSlotSaturation [taskRange13] [] =
      [⟨0, "PreferredPhases",
        "Phase 1 is oversaturated: 1 demand vs 0 capacity", .warning⟩,
       ⟨0, "PreferredPhases",
        "Phase 3 is oversaturated: 1 demand vs 0 capacity", .warning⟩] ∧
    (⟨0, "PreferredPhases",
      "Phase 2 is oversaturated: 1 demand vs 0 capacity", .warning⟩ :
        ValidationError) ∉ validatePhaseSlotSaturation [taskRange13] [] := by
  decide

/-- C4 counterexample: the empty identifier value occurs in two rows of the
collection, yet `validateDuplicateIds` emits no error for any row, so the
claim fails as stated for the empty identifier value. -/
theorem claim_C4_counterexample :
    validateDuplicateIds [clientNoId, clientNoId] .clients = [] := by
  decide

/-- C4 amended: every NON-EMPTY identifier value occurring in more than one
row causes every row carrying it — including the first occurrence — to
receive the `Duplicate ID` error on the identifier column. -/
theorem claim_C4_amended (rows : List Row) (ty : EntityType) (v : String)
    (hv : v ≠ "") (hc : 2 ≤ (rows.map (idOf ty)).count v)
    (i : Nat) (h : i < rows.length)
    (hid : idOf ty (rows.get ⟨i, h⟩) = v) :
    (⟨i, idField ty, "Duplicate ID: " ++ v, .error⟩ : ValidationError) ∈
      validateDuplicateIds rows ty := by
  have hdup : v ∈ computeDuplicateIds (rows.map (idOf ty)) :=
    scanDups_of_count v hv _ [] [] hc
  have hm := mem_dupErrorsFrom (computeDuplicateIds (rows.map (idOf ty)))
    (idField ty) (idOf ty) rows 0 i h (by rw [hid]; exact hdup)
  rw [hid, Nat.zero_add] at hm
  exact hm

/-- C4 witness: with id values `A`, `B`, `A`, the first row already gets
the duplicate error. -/
theorem claim_C4_amended_witness :
    (⟨0, "ClientID", "Duplicate ID: " ++ "A", .error⟩ : ValidationError) ∈
      validateDuplicateIds [clientIdA, clientIdB, clientIdA] .clients := by
  exact claim_C4_amended [clientIdA, clientIdB, clientIdA] .clients "A"
    (by decide) (by decide) 0 (by decide) (by decide)

/-- C5: for R1 = co-run {A, B} mustRunTogether and R2 = co-run {B, C} not
mustRunTogether, the conflict detector reports exactly one error — naming
the shared task `B` — in either relative order of the two rules. -/
theorem claim_C5_conflict_symmetry (n1 n2 d1 d2 : String) (p1 p2 : Int) :
    ((validateRuleConflicts [⟨n1, d1, p1, .coRun ["A", "B"] true⟩,
        ⟨n2, d2, p2, .coRun ["B", "C"] false⟩]).errors).length = 1 ∧
    ((validateRuleConflicts [⟨n2, d2, p2, .coRun ["B", "C"] false⟩,
        ⟨n1, d1, p1, .coRun ["A", "B"] true⟩]).errors).length = 1 ∧
    (validateRuleConflicts [⟨n1, d1, p1, .coRun ["A", "B"] true⟩,
        ⟨n2, d2, p2, .coRun ["B", "C"] false⟩]).errors =
      ["Conflicting co-run rules for tasks: B (rules \"" ++ n1 ++
        "\" and \"" ++ n2 ++ "\")"] := by
  refine ⟨rfl, rfl, rfl⟩

/-- C6: one task (`Duration=5`, `PreferredPhases='[1]'`) against one worker
(`MaxLoadPerPhase=3`, `AvailableSlots='[1]'`) yields exactly the phase-1
warning citing demand 5 and capacity 3; raising the worker's load to 5
removes it. -/
theorem claim_C6_phase_saturation_example :
    validatePhaseSlotSaturation [taskP1D5] [workerS1L3] =
      [⟨0, "PreferredPhases",
        "Phase 1 is oversaturated: 5 demand vs 3 capacity", .warning⟩] ∧
    validatePhaseSlotSaturation [taskP1D5] [workerS1L5] = [] := by
  decide

/-- C2 witness: the task `'[1,2'` (broken JSON) produces an error-severity
entry, and the amended characterization applies to it. -/
theorem claim_C2_amended_witness :
    ∃ h : 0 < ([taskBadJson] : List Row).length,
      jsIncludes (jsToString ((([taskBadJson] : List Row).get ⟨0, h⟩)
        "PreferredPhases")) "[" = true ∧
      jsonParseIntList (jsToString ((([taskBadJson] : List Row).get ⟨0, h⟩)
        "PreferredPhases")) = none ∧
      "PreferredPhases" = "PreferredPhases" ∧
      "Invalid phase format" = "Invalid phase format" :=
  claim_C2_amended.2.2 [taskBadJson] [] 0 "PreferredPhases"
    "Invalid phase format" (by decide)

/-- C7: for `validateRule` and for `validateRuleConflicts`, `isValid` is
true exactly when the errors list is empty; warnings and suggestions play
no role in validity. -/
theorem claim_C7_isValid_iff_no_errors :
    (∀ (rv : String → Bool) (rule : Rule),
      (validateRule rv rule).isValid = true ↔
      (validateRule rv rule).errors = []) ∧
    (∀ rules : List Rule,
      (validateRuleConflicts rules).isValid = true ↔
      (validateRuleConflicts rules).errors = []) := by
  constructor
  · intro rv rule
    have h : (validateRule rv rule).isValid =
        (validateRule rv rule).errors.isEmpty := rfl
    rw [h]
    exact List.isEmpty_iff
  · intro rules
    have h : (validateRuleConflicts rules).isValid =
        (validateRuleConflicts rules).errors.isEmpty := rfl
    rw [h]
    exact List.isEmpty_iff

/-- C8: `validateRuleAgainstData` never reports errors and always returns
`isValid = true`; a phase-window rule whose task id is absent from the
available task ids gets exactly the warning
`Task ID not found in data: <id>`. -/
theorem claim_C8_against_data_warnings_only :
    (∀ (rule : Rule) (ctx : DataContext),
      (validateRuleAgainstData rule ctx).errors = [] ∧
      (validateRuleAgainstData rule ctx).isValid = true) ∧
    (∀ (nm d : String) (p : Int) (tid : String) (aps : List String)
        (ctx : DataContext),
      ctx.availableTaskIds.contains tid = false →
      (validateRuleAgainstData ⟨nm, d, p, .phaseWindow tid aps none none⟩
        ctx).warnings = ["Task ID not found in data: " ++ tid]) := by
  refine ⟨fun rule ctx => ⟨rfl, rfl⟩, ?_⟩
  intro nm d p tid aps ctx h
  show againstDataWarnings (.phaseWindow tid aps none none) ctx = _
  have h' : tid ∉ ctx.availableTaskIds := by simpa using h
  simp [againstDataWarnings, h']

/-- C8 witness: the concrete rule referencing `T99` against a context that
only has `T1`. -/
theorem claim_C8_witness :
    (validateRuleAgainstData ⟨"n", "d", 1, .phaseWindow "T99" ["1"]
      none none⟩ ctxT1).errors = [] ∧
    (validateRuleAgainstData ⟨"n", "d", 1, .phaseWindow "T99" ["1"]
      none none⟩ ctxT1).warnings =
      ["Task ID not found in data: " ++ "T99"] :=
  ⟨(claim_C8_against_data_warnings_only.1 _ ctxT1).1,
   claim_C8_against_data_warnings_only.2 "n" "d" 1 "T99" ["1"] ctxT1
     (by decide)⟩

/-- C9: rows whose identifier field is absent or the empty string are never
flagged by `validateDuplicateIds`: only non-empty identifier values take
part in duplicate detection. -/
theorem claim_C9_empty_ids_not_duplicates (rows : List Row)
    (ty : EntityType) (i : Nat) (h : i < rows.length)
    (hid : (rows.get ⟨i, h⟩) (idField ty) = Value.absent ∨
      (rows.get ⟨i, h⟩) (idField ty) = Value.str "") :
    ∀ e ∈ validateDuplicateIds rows ty, e.rowIndex ≠ i := by
  intro e he hcontra
  have hempty : idOf ty (rows.get ⟨i, h⟩) = "" := by
    rcases hid with h1 | h1 <;> simp [idOf, jsTruthy, h1, jsToString]
  rcases rowIndex_of_mem_dupErrorsFrom _ _ _ rows 0 e he with ⟨j, hj, hr, hd⟩
  rw [hcontra] at hr
  have hji : j = i := by omega
  subst hji
  have hd' : idOf ty (rows.get ⟨j, h⟩) ∈
      computeDuplicateIds (rows.map (idOf ty)) := hd
  rw [hempty] at hd'
  exact scanDups_empty_str _ [] [] (List.not_mem_nil "") hd'

/-- C9 witness: with rows (empty id, `A`, `A`) the duplicate error at row 1
indeed does not point at the empty-id row 0. -/
theorem claim_C9_witness :
    (⟨1, "ClientID", "Duplicate ID: A", .error⟩ :
      ValidationError).rowIndex ≠ 0 := by
  exact claim_C9_empty_ids_not_duplicates [clientNoId, clientIdA, clientIdA]
    .clients 0 (by decide) (Or.inr rfl)
    ⟨1, "ClientID", "Duplicate ID: A", .error⟩ (by decide)

/-- C10: a rule whose type tag is none of the six known variants yields
(totally, without failure) a result whose errors contain
`Unknown rule type: <tag>`, whose `isValid` is false, and to which the
common name/description/priority checks still apply. -/
theorem claim_C10_unknown_rule_type (rv : String → Bool)
    (tag nm d : String) (p : Int) :
    ("Unknown rule type: " ++ tag) ∈
      (validateRule rv ⟨nm, d, p, .unknown tag⟩).errors ∧
    (validateRule rv ⟨nm, d, p, .unknown tag⟩).isValid = false ∧
    (myTrim nm = "" → "Rule name is required" ∈
      (validateRule rv ⟨nm, d, p, .unknown tag⟩).errors) ∧
    (myTrim d = "" → "Rule description is recommended for clarity" ∈
      (validateRule rv ⟨nm, d, p, .unknown tag⟩).warnings) ∧
    ((p < 0 ∨ p > 100) → "Rule priority must be between 0 and 100" ∈
      (validateRule rv ⟨nm, d, p, .unknown tag⟩).errors) := by
  by_cases h1 : myTrim nm = "" <;> by_cases h2 : p < 0 ∨ p > 100 <;>
    by_cases h3 : myTrim d = "" <;>
    simp [validateRule, variantChecks, h1, h2, h3]

/-- C10 witness: the unknown tag `foo` with blank name, blank description
and out-of-range priority `-1`. -/
theorem claim_C10_witness :
    ("Unknown rule type: " ++ "foo") ∈
      (validateRule (fun _ => true) ⟨"", "", -1, .unknown "foo"⟩).errors ∧
    (validateRule (fun _ => true) ⟨"", "", -1, .unknown "foo"⟩).isValid
      = false ∧
    "Rule name is required" ∈
      (validateRule (fun _ => true) ⟨"", "", -1, .unknown "foo"⟩).errors ∧
    "Rule description is recommended for clarity" ∈
      (validateRule (fun _ => true) ⟨"", "", -1, .unknown "foo"⟩).warnings ∧
    "Rule priority must be between 0 and 100" ∈
      (validateRule (fun _ => true) ⟨"", "", -1, .unknown "foo"⟩).errors := by
  have h := claim_C10_unknown_rule_type (fun _ => true) "foo" "" "" (-1)
  exact ⟨h.1, h.2.1, h.2.2.1 (by decide), h.2.2.2.1 (by decide),
    h.2.2.2.2 (by decide)⟩

end DataAlchemist
